import Mathlib

/-!
Shallow embedding of the `RunRecipe` documentation component
(`src/site/src/components/RunRecipe/index.jsx`) of the
`break-your-testing-habits` repository, together with theorems settling
the specification claims about it.

The component is a pure template generator: given a `RecipeConfig` it
renders a fixed ordered list of tabbed variants, each with a label and a
body made of prose paragraphs and code blocks.  Every definition below is
transcribed from the JSX source; JavaScript idioms (`a || b` defaulting,
`String.prototype.split`, template-literal coercion of `undefined`,
`replace(/\s+/g, '')`) are modelled explicitly.
-/

namespace RunRecipe

/-- Configuration record for one documented recipe, mirroring the props of
the `RunRecipe` JSX component.  The two optional props are `Option String`
(absent = `undefined` in JS) and the boolean prop defaults to `false`. -/
structure RecipeConfig where
  recipeName : String
  recipeDisplayName : String
  artifact : String
  intellijWrapperName : Option String := none
  intellijDescription : Option String := none
  requiresYamlInstall : Bool := false
deriving Repr, DecidableEq

/-- JavaScript `a || b` for an optional string prop: `undefined` and the
empty string are falsy, so both fall through to the default. -/
def jsOr (a : Option String) (b : String) : String :=
  match a with
  | none => b
  | some s => if s = "" then b else s

/-- JavaScript template-literal coercion of a possibly-`undefined` string:
`undefined` interpolates as the literal text `undefined`. -/
def jsTemplate (v : Option String) : String :=
  match v with
  | some s => s
  | none => "undefined"

/-- The character class of the JavaScript regular expression `\s`:
ASCII whitespace, NBSP, the Unicode space separators, line and paragraph
separators, and the BOM. -/
def isJsWhitespace (c : Char) : Bool :=
  let n := c.toNat
  n = 0x9 || n = 0xa || n = 0xb || n = 0xc || n = 0xd || n = 0x20 ||
  n = 0xa0 || n = 0x1680 || (0x2000 ≤ n && n ≤ 0x200a) ||
  n = 0x2028 || n = 0x2029 || n = 0x202f || n = 0x205f || n = 0x3000 ||
  n = 0xfeff

/-- `replace(/\s+/g, repl)` on a character list: each maximal run of
whitespace is replaced by `repl` (emitted at the first character of the
run; the `Bool` argument records whether we are inside a run). -/
def replaceWsRunsAux (repl : List Char) : Bool → List Char → List Char
  | _, [] => []
  | inRun, c :: cs =>
    if isJsWhitespace c then
      (if inRun then [] else repl) ++ replaceWsRunsAux repl true cs
    else c :: replaceWsRunsAux repl false cs

/-- `s.replace(/\s+/g, '')` from the source: every whitespace run is
replaced by the empty string. -/
def stripWhitespace (s : String) : String :=
  String.mk (replaceWsRunsAux [] false s.data)

/-- Default IntelliJ wrapper name, from
`com.github.timtebeek.${recipeDisplayName.replace(/\s+/g, '')}`. -/
def deriveWrapperName (displayName : String) : String :=
  "com.github.timtebeek." ++ stripWhitespace displayName

/-- Default IntelliJ description, from
`${recipeDisplayName} and apply best practices to assertions.`. -/
def deriveDescription (displayName : String) : String :=
  displayName ++ " and apply best practices to assertions."

/-- Core of JavaScript `String.prototype.split` with a one-character
separator: returns the segment up to the first separator and the list of
the remaining segments. -/
def splitOnCharCore (c : Char) : List Char → List Char × List (List Char)
  | [] => ([], [])
  | x :: xs =>
    let r := splitOnCharCore c xs
    if x = c then ([], r.1 :: r.2) else (x :: r.1, r.2)

/-- JavaScript `String.prototype.split` with a one-character separator on a
character list; the result is always nonempty. -/
def splitOnChar (c : Char) (l : List Char) : List (List Char) :=
  (splitOnCharCore c l).1 :: (splitOnCharCore c l).2

/-- JavaScript `s.split(sep)` for a one-character separator, on strings. -/
def jsSplit (s : String) (c : Char) : List String :=
  (splitOnChar c s.data).map String.mk

/-- `const [groupId, artifactId] = artifact.split(':')` from the source:
destructuring takes the first two segments; the second is `undefined`
(here `none`) when the artifact has no colon. -/
def splitArtifact (artifact : String) : String × Option String :=
  let parts := jsSplit artifact ':'
  (parts.headD "", parts[1]?)

/-- Modelled from the spec: the contract
`splitArtifact(artifact) -> (group, artifactId)` that "fails with
`MalformedCoordinateError` when no colon is present".  This definition is
NOT in the source (the source never raises); it follows the words of
spec section 4.2 and exists only to be compared with `splitArtifact`. -/
def splitArtifactSpec (artifact : String) : Except String (String × String) :=
  if artifact.data.contains ':' then
    .ok (String.mk (artifact.data.takeWhile (fun c => c != ':')),
         String.mk ((artifact.data.dropWhile (fun c => c != ':')).drop 1))
  else
    .error "MalformedCoordinateError"

/-- Effective IntelliJ wrapper name (`const wrapperName = ... || ...`). -/
def wrapperName (cfg : RecipeConfig) : String :=
  jsOr cfg.intellijWrapperName (deriveWrapperName cfg.recipeDisplayName)

/-- Effective IntelliJ description (`const description = ... || ...`). -/
def description (cfg : RecipeConfig) : String :=
  jsOr cfg.intellijDescription (deriveDescription cfg.recipeDisplayName)

/-- `const modBuild` snippet. -/
def modBuild : String := "mod build ~/workspace/"

/-- `const modConfigRecipes` snippet: when `requiresYamlInstall` is set an
extra manifest-install line is appended. -/
def modConfigRecipes (cfg : RecipeConfig) : String :=
  if cfg.requiresYamlInstall then
    "mod config recipes jar install " ++ cfg.artifact ++
      ":LATEST\nmod config recipes yaml install /path/to/your/rewrite.yml"
  else
    "mod config recipes jar install " ++ cfg.artifact ++ ":LATEST"

/-- `const modRun` snippet. -/
def modRun (cfg : RecipeConfig) : String :=
  "mod run ~/workspace/ --recipe " ++ cfg.recipeName

/-- `const mavenCli` snippet. -/
def mavenCli (cfg : RecipeConfig) : String :=
  "mvn -U org.openrewrite.maven:rewrite-maven-plugin:run -Drewrite.recipeArtifactCoordinates="
    ++ cfg.artifact ++ ":RELEASE -Drewrite.activeRecipes=" ++ cfg.recipeName
    ++ " -Drewrite.exportDatatables=true"

/-- Literal part of the Maven POM template before `recipeName`. -/
def pomA : String :=
  "<project>\n  <build>\n    <plugins>\n      <plugin>\n        <groupId>org.openrewrite.maven</groupId>\n        <artifactId>rewrite-maven-plugin</artifactId>\n        <version>LATEST</version>\n        <configuration>\n          <exportDatatables>true</exportDatatables>\n          <activeRecipes>\n            <recipe>"

/-- Literal part of the Maven POM template between `recipeName` and
`groupId`. -/
def pomB : String :=
  "</recipe>\n          </activeRecipes>\n        </configuration>\n        <dependencies>\n          <dependency>\n            <groupId>"

/-- Literal part of the Maven POM template between `groupId` and
`artifactId`. -/
def pomC : String := "</groupId>\n            <artifactId>"

/-- Literal part of the Maven POM template after `artifactId`. -/
def pomD : String :=
  "</artifactId>\n            <version>LATEST</version>\n          </dependency>\n        </dependencies>\n      </plugin>\n    </plugins>\n  </build>\n</project>"

/-- `const mavenPom` snippet: interpolates `recipeName` and the
destructured `groupId`/`artifactId` pair into the POM template. -/
def mavenPom (cfg : RecipeConfig) : String :=
  pomA ++ cfg.recipeName ++ pomB ++ (splitArtifact cfg.artifact).1 ++ pomC
    ++ jsTemplate (splitArtifact cfg.artifact).2 ++ pomD

/-- `const gradleInit` snippet. -/
def gradleInit (cfg : RecipeConfig) : String :=
  "initscript \x7b\n    repositories \x7b\n        maven \x7b url \"https://plugins.gradle.org/m2\" \x7d\n    \x7d\n    dependencies \x7b classpath(\"org.openrewrite:plugin:latest.release\") \x7d\n\x7d\nrootProject \x7b\n    plugins.apply(org.openrewrite.gradle.RewritePlugin)\n    dependencies \x7b\n        rewrite(\""
    ++ cfg.artifact ++
    ":latest.release\")\n    \x7d\n    rewrite \x7b\n        activeRecipe(\""
    ++ cfg.recipeName ++
    "\")\n        setExportDatatables(true)\n    \x7d\n    afterEvaluate \x7b\n        if (repositories.isEmpty()) \x7b\n            repositories \x7b\n                mavenCentral()\n            \x7d\n        \x7d\n    \x7d\n\x7d"

/-- `const gradleBuild` snippet. -/
def gradleBuild (cfg : RecipeConfig) : String :=
  "plugins \x7b\n    id(\"org.openrewrite.rewrite\") version(\"latest.release\")\n\x7d\n\nrewrite \x7b\n    activeRecipe(\""
    ++ cfg.recipeName ++
    "\")\n    setExportDatatables(true)\n\x7d\n\nrepositories \x7b\n    mavenCentral()\n\x7d\n\ndependencies \x7b\n    rewrite(\""
    ++ cfg.artifact ++ ":latest.release\")\n\x7d"

/-- `const intellijYaml` snippet, parameterized over the effective wrapper
name `w` and description `d` (the source computes both once, before the
template). -/
def intellijYaml (cfg : RecipeConfig) (w d : String) : String :=
  "---\ntype: specs.openrewrite.org/v1beta/recipe\nname: " ++ w
    ++ "\ndisplayName: " ++ cfg.recipeDisplayName
    ++ "\ndescription: " ++ d
    ++ "\nrecipeList:\n  - " ++ cfg.recipeName

/-- One piece of a rendered tab body: a prose paragraph or a code block
(with its language and title attributes). -/
inductive Item where
  | prose (text : String)
  | code (language : String) (title : String) (text : String)
deriving Repr, DecidableEq

/-- One rendered tab: the `TabItem` value and label plus the flattened
body content. -/
structure Variant where
  value : String
  label : String
  body : List Item
deriving Repr, DecidableEq

/-- The rendered output, parameterized over the effective wrapper name and
description, mirroring the JSX tree: six `TabItem`s in fixed order, the
last of which branches on `requiresYamlInstall`. -/
def composeWith (cfg : RecipeConfig) (w d : String) : List Variant :=
  [ { value := "moderne-cli", label := "Moderne CLI",
      body :=
        [ .prose "The Moderne CLI allows you to run OpenRewrite recipes on your project without needing to modify your build files, against serialized Lossless Semantic Tree (LST) of your project for a considerable performance boost & across projects.",
          .prose "You will need to have configured the Moderne CLI on your machine before you can run the following command.",
          .prose "If project serialized Lossless Semantic Tree is not yet available locally, then build the LST. This is only needed the first time, or after extensive changes:",
          .code "bash" "shell" modBuild,
          .prose "If the recipe is not available locally yet, then you can install it once using:",
          .code "shell" "shell" (modConfigRecipes cfg),
          .prose "Run the recipe.",
          .code "shell" "shell" (modRun cfg) ] },
    { value := "maven-command-line", label := "Maven Command Line",
      body :=
        [ .prose "You will need to have Maven installed on your machine before you can run the following command.",
          .code "shell" "shell" (mavenCli cfg) ] },
    { value := "maven", label := "Maven POM",
      body :=
        [ .prose "You may add the plugin to your pom.xml file, so that it is available for all developers and CI/CD pipelines.",
          .prose "Add the following to your pom.xml file:",
          .code "xml" "pom.xml" (mavenPom cfg),
          .prose "Run the recipe.",
          .code "shell" "shell" "mvn rewrite:run" ] },
    { value := "gradle-init-script", label := "Gradle init script",
      body :=
        [ .prose "Gradle init scripts are a good way to try out a recipe without modifying your build.gradle file.",
          .prose "Create a file named init.gradle in the root of your project.",
          .code "groovy" "init.gradle" (gradleInit cfg),
          .prose "Run the recipe.",
          .code "shell" "shell" "gradle --init-script init.gradle rewriteRun" ] },
    { value := "gradle", label := "Gradle",
      body :=
        [ .prose "You can add the plugin to your build.gradle file, so that it is available for all developers and CI/CD pipelines.",
          .prose "Add the following to your build.gradle file:",
          .code "groovy" "build.gradle" (gradleBuild cfg),
          .prose "Run gradle rewriteRun to run the recipe." ] },
    { value := "intelliJ", label := "IntelliJ IDEA Ultimate",
      body :=
        if cfg.requiresYamlInstall then
          [ .prose "You can run OpenRewrite recipes directly from IntelliJ IDEA, after installing the OpenRewrite plugin.",
            .prose "After adding the rewrite.yml file shown above to your project, you should see a run icon in the left margin offering to run the recipe." ]
        else
          [ .prose "You can run OpenRewrite recipes directly from IntelliJ IDEA Ultimate, after installing the OpenRewrite plugin, by adding a rewrite.yml file to your project.",
            .code "yaml" "rewrite.yml" (intellijYaml cfg w d),
            .prose "After adding the file, you should see a run icon in the left margin offering to run the recipe." ] } ]

/-- The full render: the source computes the effective wrapper name and
description once and then builds the tab list. -/
def compose (cfg : RecipeConfig) : List Variant :=
  composeWith cfg (wrapperName cfg) (description cfg)

/-- The six tab labels, in the order they appear in the JSX tree. -/
def fixedLabels : List String :=
  ["Moderne CLI", "Maven Command Line", "Maven POM", "Gradle init script",
   "Gradle", "IntelliJ IDEA Ultimate"]

/-- Does `l` start with `p`? -/
def listStartsWith : List Char → List Char → Bool
  | _, [] => true
  | [], _ :: _ => false
  | h :: hs, p :: ps => h == p && listStartsWith hs ps

/-- Does `pat` occur contiguously inside `hay`? -/
def listHasInfix (hay pat : List Char) : Bool :=
  match hay with
  | [] => pat.isEmpty
  | _ :: t => listStartsWith hay pat || listHasInfix t pat

/-- Substring test on strings (executable). -/
def containsStr (hay pat : String) : Bool :=
  listHasInfix hay.data pat.data

/-- The raw text of a body item. -/
def itemText : Item → String
  | .prose t => t
  | .code _ _ t => t

/-- The code-block contents of a variant body, in order. -/
def codeTexts (v : Variant) : List String :=
  v.body.filterMap fun i =>
    match i with
    | .code _ _ t => some t
    | .prose _ => none

/-- Does any item of the variant body contain `pat` as a substring? -/
def bodyContains (v : Variant) (pat : String) : Bool :=
  v.body.any fun i => containsStr (itemText i) pat

/-- The declarative IDE variant: the last (sixth) tab of the render. -/
def ideVariant (cfg : RecipeConfig) : Variant :=
  (compose cfg).getD 5 ⟨"", "", []⟩

/-- A representative well-formed configuration (taken from the
`practice-migrate-junit5` page of the repository). -/
def cfgA : RecipeConfig :=
  { recipeName := "org.openrewrite.java.testing.junit5.JUnit4to5Migration",
    recipeDisplayName := "Adopt AssertJ",
    artifact := "org.openrewrite.recipe:rewrite-testing-frameworks" }

/-- A configuration with `requiresYamlInstall` set. -/
def cfgY : RecipeConfig :=
  { recipeName := "com.github.timtebeek.UseParameterizedClass",
    recipeDisplayName := "Use ParameterizedClass",
    artifact := "org.openrewrite.recipe:rewrite-testing-frameworks",
    requiresYamlInstall := true }

/-- A second, different configuration with `requiresYamlInstall` set. -/
def cfgY2 : RecipeConfig :=
  { recipeName := "org.example.SomeOtherRecipe",
    recipeDisplayName := "Some Other Recipe",
    artifact := "org.example:another-artifact",
    intellijWrapperName := some "org.example.Wrapper",
    intellijDescription := some "A different description.",
    requiresYamlInstall := true }

/-- A configuration that supplies both overrides as empty strings. -/
def cfgE : RecipeConfig :=
  { recipeName := "org.openrewrite.java.testing.junit5.JUnit4to5Migration",
    recipeDisplayName := "Adopt AssertJ",
    artifact := "org.openrewrite.recipe:rewrite-testing-frameworks",
    intellijWrapperName := some "",
    intellijDescription := some "" }

/-- A configuration that supplies both overrides as nonempty strings. -/
def cfgF : RecipeConfig :=
  { recipeName := "org.openrewrite.java.testing.junit5.JUnit4to5Migration",
    recipeDisplayName := "Adopt AssertJ",
    artifact := "org.openrewrite.recipe:rewrite-testing-frameworks",
    intellijWrapperName := some "com.example.Custom",
    intellijDescription := some "Custom description." }

/-- A configuration whose artifact coordinate has no colon. -/
def cfgN : RecipeConfig :=
  { recipeName := "org.openrewrite.java.testing.junit5.JUnit4to5Migration",
    recipeDisplayName := "Adopt AssertJ",
    artifact := "no-colon-here" }

/-! ### Infrastructure lemmas -/

theorem listStartsWith_iff (p : List Char) : ∀ l : List Char,
    listStartsWith l p = true ↔ ∃ t, p ++ t = l := by
  induction p with
  | nil => intro l; simp [listStartsWith]
  | cons ph pt ih =>
    intro l
    cases l with
    | nil => simp [listStartsWith]
    | cons lh lt =>
      show (lh == ph && listStartsWith lt pt) = true ↔ _
      rw [Bool.and_eq_true, beq_iff_eq, ih lt]
      constructor
      · rintro ⟨rfl, t, rfl⟩
        exact ⟨t, rfl⟩
      · rintro ⟨t, h⟩
        rw [List.cons_append] at h
        injection h with h1 h2
        exact ⟨h1.symm, t, h2⟩

theorem listHasInfix_iff (pat : List Char) : ∀ hay : List Char,
    listHasInfix hay pat = true ↔ ∃ s t, s ++ pat ++ t = hay := by
  intro hay
  induction hay with
  | nil =>
    show pat.isEmpty = true ↔ _
    rw [List.isEmpty_iff]
    constructor
    · rintro rfl
      exact ⟨[], [], rfl⟩
    · rintro ⟨s, t, h⟩
      simp only [List.append_eq_nil] at h
      exact h.1.2
  | cons h t ih =>
    show (listStartsWith (h :: t) pat || listHasInfix t pat) = true ↔ _
    rw [Bool.or_eq_true, listStartsWith_iff, ih]
    constructor
    · rintro (⟨u, hu⟩ | ⟨s, u, hu⟩)
      · exact ⟨[], u, by simpa using hu⟩
      · exact ⟨h :: s, u, by simp [← hu]⟩
    · rintro ⟨s, u, hu⟩
      cases s with
      | nil => exact Or.inl ⟨u, by simpa using hu⟩
      | cons x xs =>
        rw [List.cons_append, List.cons_append] at hu
        injection hu with h1 h2
        exact Or.inr ⟨xs, u, by simpa using h2⟩

theorem containsStr_intro (hay a b c pat : String) (h : hay = a ++ b ++ c)
    (hp : pat = b) : containsStr hay pat = true := by
  subst h
  subst hp
  rw [containsStr, listHasInfix_iff]
  exact ⟨a.data, c.data, by simp⟩

theorem containsStr_split_left (hay a b : String)
    (h : containsStr hay (a ++ b) = true) : containsStr hay a = true := by
  rw [containsStr, listHasInfix_iff] at h ⊢
  obtain ⟨s, t, hst⟩ := h
  refine ⟨s, b.data ++ t, ?_⟩
  rw [← hst]
  simp [List.append_assoc]

theorem containsStr_split_right (hay a b : String)
    (h : containsStr hay (a ++ b) = true) : containsStr hay b = true := by
  rw [containsStr, listHasInfix_iff] at h ⊢
  obtain ⟨s, t, hst⟩ := h
  refine ⟨s ++ a.data, t, ?_⟩
  rw [← hst]
  simp [List.append_assoc]

theorem containsStr_false_left (hay a b : String)
    (h : containsStr hay a = false) : containsStr hay (a ++ b) = false := by
  cases hc : containsStr hay (a ++ b) with
  | false => rfl
  | true => rw [containsStr_split_left hay a b hc] at h; cases h

theorem containsStr_false_right (hay a b : String)
    (h : containsStr hay b = false) : containsStr hay (a ++ b) = false := by
  cases hc : containsStr hay (a ++ b) with
  | false => rfl
  | true => rw [containsStr_split_right hay a b hc] at h; cases h

theorem replaceWsRunsAux_nil_repl (l : List Char) : ∀ b : Bool,
    replaceWsRunsAux [] b l = l.filter (fun c => !isJsWhitespace c) := by
  induction l with
  | nil => intro b; rfl
  | cons c cs ih =>
    intro b
    rw [replaceWsRunsAux, List.filter_cons]
    cases h : isJsWhitespace c with
    | true => simp [h, ih]
    | false => simp [h, ih]

theorem splitOnCharCore_fst (c : Char) : ∀ l : List Char,
    (splitOnCharCore c l).1 = l.takeWhile (fun x => x != c) := by
  intro l
  induction l with
  | nil => rfl
  | cons x xs ih =>
    rw [splitOnCharCore, List.takeWhile]
    cases h : (x == c) with
    | true =>
      have hx : x = c := by simpa using h
      simp [hx]
    | false =>
      have hx : ¬ x = c := by simpa using h
      simp [hx, bne, h, ih]

theorem splitOnCharCore_not_mem (c : Char) : ∀ l : List Char, c ∉ l →
    splitOnCharCore c l = (l, []) := by
  intro l
  induction l with
  | nil => intro _; rfl
  | cons x xs ih =>
    intro hm
    have hx : ¬ x = c := fun h => hm (h ▸ List.mem_cons_self x xs)
    have hxs : c ∉ xs := fun h => hm (List.mem_cons_of_mem x h)
    rw [splitOnCharCore]
    simp [hx, ih hxs]

theorem splitOnCharCore_snd_mem (c : Char) : ∀ l : List Char, c ∈ l →
    (splitOnCharCore c l).2 = splitOnChar c ((l.dropWhile (fun x => x != c)).drop 1) := by
  intro l
  induction l with
  | nil => intro hm; cases hm
  | cons x xs ih =>
    intro hm
    rw [splitOnCharCore, List.dropWhile]
    cases hx : (x == c) with
    | true =>
      have hxc : x = c := by simpa using hx
      simp [hxc, splitOnChar]
    | false =>
      have hxc : ¬ x = c := by simpa using hx
      have hmem : c ∈ xs := by
        cases List.mem_cons.mp hm with
        | inl h => exact absurd h.symm hxc
        | inr h => exact h
      simp [hxc, bne, hx, ih hmem]

theorem splitArtifact_not_mem (a : String) (h : ':' ∉ a.data) :
    splitArtifact a = (a, none) := by
  rw [splitArtifact, jsSplit, splitOnChar, splitOnCharCore_not_mem ':' a.data h]
  rfl

theorem splitArtifact_mem (a : String) (h : ':' ∈ a.data) :
    splitArtifact a =
      (String.mk (a.data.takeWhile (fun x => x != ':')),
       some (String.mk (((a.data.dropWhile (fun x => x != ':')).drop 1).takeWhile
         (fun x => x != ':')))) := by
  rw [splitArtifact, jsSplit, splitOnChar, splitOnCharCore_snd_mem ':' a.data h,
    splitOnCharCore_fst, splitOnChar, splitOnCharCore_fst]
  simp

/-! ### Claim theorems -/

/-- C1 (counterexample): at a representative well-formed configuration the
render produces six variants, not the five the claim states. -/
theorem compose_length_ne_five : (compose cfgA).length ≠ 5 := by decide

/-- C1 (amended): for every `RecipeConfig` whose artifact contains a colon,
`compose` returns exactly six variants in the fixed label order
`fixedLabels` (dedicated runner, ad hoc Maven build plugin, persistent
Maven manifest, ephemeral Gradle init script, persistent Gradle manifest,
declarative IDE); since the label list is the same for every
configuration, the declarative IDE variant is always the sixth, with the
same label, whether `requiresYamlInstall` is true or false. -/
theorem compose_labels_fixed (cfg : RecipeConfig)
    (_h : ':' ∈ cfg.artifact.data) :
    (compose cfg).map Variant.label = fixedLabels := rfl

/-- Witness for `compose_labels_fixed` at the concrete `cfgA`. -/
theorem compose_labels_fixed_witness :
    (compose cfgA).map Variant.label = fixedLabels :=
  compose_labels_fixed cfgA (by decide)

/-- C2 (counterexample): on the artifact `no-colon-here` the spec-modelled
contract fails with `MalformedCoordinateError`, but the source's
`splitArtifact` returns normally (whole string as group, no artifactId)
and the render still produces all six variants: no error is ever
raised. -/
theorem splitArtifact_no_colon_returns :
    splitArtifactSpec "no-colon-here" = .error "MalformedCoordinateError" ∧
    splitArtifact "no-colon-here" = ("no-colon-here", none) ∧
    (compose cfgN).length = 6 :=
  ⟨rfl, by decide, by decide⟩

/-- C2 (amended): `splitArtifact` never raises.  For every configuration
whose artifact contains no colon it returns the whole artifact string as
the group with no artifactId, and rendering still fully succeeds,
producing the complete variant list. -/
theorem splitArtifact_total_render (cfg : RecipeConfig)
    (h : ':' ∉ cfg.artifact.data) :
    splitArtifact cfg.artifact = (cfg.artifact, none) ∧
    (compose cfg).length = 6 :=
  ⟨splitArtifact_not_mem cfg.artifact h, rfl⟩

/-- Witness for `splitArtifact_total_render` at the concrete `cfgN`. -/
theorem splitArtifact_total_render_witness :
    splitArtifact cfgN.artifact = (cfgN.artifact, none) ∧
    (compose cfgN).length = 6 :=
  splitArtifact_total_render cfgN (by decide)

/-- C3 (counterexample): on an artifact with two colons the artifactId is
the segment between the first and second colon, not the entire remainder
after the first colon. -/
theorem splitArtifact_multi_colon :
    splitArtifact "a:b:c" = ("a", some "b") ∧
    splitArtifact "a:b:c" ≠ ("a", some "b:c") :=
  ⟨by decide, by decide⟩

/-- C3 (amended): for every artifact string containing at least one colon,
the group is the substring before the first colon and the artifactId is
the segment strictly between the first colon and the next colon (so an
artifact with multiple colons drops everything from the second colon on);
in particular `splitArtifact "org.example:my-tool" =
("org.example", some "my-tool")` (see the witness). -/
theorem splitArtifact_first_colon_segments (a : String) (h : ':' ∈ a.data) :
    splitArtifact a =
      (String.mk (a.data.takeWhile (fun x => x != ':')),
       some (String.mk (((a.data.dropWhile (fun x => x != ':')).drop 1).takeWhile
         (fun x => x != ':')))) :=
  splitArtifact_mem a h

/-- Witness for `splitArtifact_first_colon_segments` at the spec's own
example input. -/
theorem splitArtifact_first_colon_segments_witness :
    splitArtifact "org.example:my-tool" = ("org.example", some "my-tool") := by
  have h := splitArtifact_first_colon_segments "org.example:my-tool" (by decide)
  exact h.trans (by decide)

/-- C4: `deriveWrapperName` is total over every string (it is a Lean
function), equals the fixed namespace segment followed by the display name
with all whitespace removed, maps `Adopt AssertJ` to
`com.github.timtebeek.AdoptAssertJ`, and maps the empty display name to
the bare namespace segment. -/
theorem deriveWrapperName_spec (s : String) :
    deriveWrapperName s =
      "com.github.timtebeek." ++
        String.mk (s.data.filter (fun c => !isJsWhitespace c)) ∧
    deriveWrapperName "Adopt AssertJ" = "com.github.timtebeek.AdoptAssertJ" ∧
    deriveWrapperName "" = "com.github.timtebeek." := by
  refine ⟨?_, by decide, by decide⟩
  rw [deriveWrapperName, stripWhitespace, replaceWsRunsAux_nil_repl]

set_option maxRecDepth 400000 in
/-- C5: for the spec's concrete configuration (any display name and any
overrides, which the second variant does not use), the code snippet of the
second variant (ad hoc Maven build plugin) is exactly the expected single
command line, and that line contains no newline. -/
theorem mavenCli_exact (dn : String) (w d : Option String) :
    codeTexts ((compose
        { recipeName := "org.openrewrite.java.testing.junit5.JUnit4to5Migration",
          recipeDisplayName := dn,
          artifact := "org.openrewrite.recipe:rewrite-testing-frameworks",
          intellijWrapperName := w,
          intellijDescription := d,
          requiresYamlInstall := false }).getD 1 { value := "", label := "", body := [] }) =
      ["mvn -U org.openrewrite.maven:rewrite-maven-plugin:run -Drewrite.recipeArtifactCoordinates=org.openrewrite.recipe:rewrite-testing-frameworks:RELEASE -Drewrite.activeRecipes=org.openrewrite.java.testing.junit5.JUnit4to5Migration -Drewrite.exportDatatables=true"] ∧
    '\n' ∉ ("mvn -U org.openrewrite.maven:rewrite-maven-plugin:run -Drewrite.recipeArtifactCoordinates=org.openrewrite.recipe:rewrite-testing-frameworks:RELEASE -Drewrite.activeRecipes=org.openrewrite.java.testing.junit5.JUnit4to5Migration -Drewrite.exportDatatables=true" : String).data := by
  refine ⟨?_, by decide⟩
  simp only [compose, composeWith, codeTexts, mavenCli, List.getD_cons_succ,
    List.getD_cons_zero, List.filterMap_cons, List.filterMap_nil]
  decide

set_option maxRecDepth 400000 in
/-- C6 (counterexample): at a configuration with `requiresYamlInstall =
false` and no overrides, the fifth variant (the Gradle build-file tab, not
the declarative IDE tab) does not contain the derived wrapper name, and
its body does have a code snippet: the claim's "variant 5" is wrong. -/
theorem fifth_variant_lacks_wrapper :
    cfgA.requiresYamlInstall = false ∧ cfgA.intellijWrapperName = none ∧
    cfgA.intellijDescription = none ∧
    bodyContains ((compose cfgA).getD 4 { value := "", label := "", body := [] })
      (deriveWrapperName cfgA.recipeDisplayName) = false ∧
    codeTexts ((compose cfgA).getD 4 { value := "", label := "", body := [] }) ≠ [] :=
  ⟨rfl, rfl, rfl, by decide, by decide⟩

set_option maxRecDepth 400000 in
/-- C6 (amended: the claim's "variant 5" is the declarative IDE variant,
which is the sixth tab): with `requiresYamlInstall = false` and no
overrides, the IDE variant body contains the derived wrapper name and the
derived description; with `requiresYamlInstall = true`, the first
(dedicated-runner) variant body contains the manifest-install line
`mod config recipes yaml install /path/to/your/rewrite.yml`, and the IDE
variant body has no code snippet and contains neither the derived wrapper
name nor the derived description. -/
theorem ide_variant_content (cfg : RecipeConfig) :
    (cfg.requiresYamlInstall = false → cfg.intellijWrapperName = none →
     cfg.intellijDescription = none →
      bodyContains (ideVariant cfg) (deriveWrapperName cfg.recipeDisplayName) = true ∧
      bodyContains (ideVariant cfg) (deriveDescription cfg.recipeDisplayName) = true) ∧
    (cfg.requiresYamlInstall = true →
      bodyContains ((compose cfg).getD 0 { value := "", label := "", body := [] })
        "mod config recipes yaml install /path/to/your/rewrite.yml" = true ∧
      codeTexts (ideVariant cfg) = [] ∧
      bodyContains (ideVariant cfg) (deriveWrapperName cfg.recipeDisplayName) = false ∧
      bodyContains (ideVariant cfg) (deriveDescription cfg.recipeDisplayName) = false) := by
  constructor
  · intro hf hw hd
    have hwn : wrapperName cfg = deriveWrapperName cfg.recipeDisplayName := by
      simp [wrapperName, hw, jsOr]
    have hdn : description cfg = deriveDescription cfg.recipeDisplayName := by
      simp [description, hd, jsOr]
    have hy1 : containsStr (intellijYaml cfg (wrapperName cfg) (description cfg))
        (deriveWrapperName cfg.recipeDisplayName) = true := by
      apply containsStr_intro _
        "---\ntype: specs.openrewrite.org/v1beta/recipe\nname: "
        (deriveWrapperName cfg.recipeDisplayName)
        ("\ndisplayName: " ++ cfg.recipeDisplayName ++ "\ndescription: "
          ++ description cfg ++ "\nrecipeList:\n  - " ++ cfg.recipeName) _ ?_ rfl
      rw [intellijYaml, hwn]
      simp [String.append_assoc]
    have hy2 : containsStr (intellijYaml cfg (wrapperName cfg) (description cfg))
        (deriveDescription cfg.recipeDisplayName) = true := by
      apply containsStr_intro _
        ("---\ntype: specs.openrewrite.org/v1beta/recipe\nname: "
          ++ wrapperName cfg ++ "\ndisplayName: " ++ cfg.recipeDisplayName
          ++ "\ndescription: ")
        (deriveDescription cfg.recipeDisplayName)
        ("\nrecipeList:\n  - " ++ cfg.recipeName) _ ?_ rfl
      rw [intellijYaml, hdn]
      simp [String.append_assoc]
    constructor
    · rw [bodyContains, List.any_eq_true]
      refine ⟨Item.code "yaml" "rewrite.yml"
        (intellijYaml cfg (wrapperName cfg) (description cfg)), ?_, ?_⟩
      · simp [ideVariant, compose, composeWith, hf]
      · simpa [itemText] using hy1
    · rw [bodyContains, List.any_eq_true]
      refine ⟨Item.code "yaml" "rewrite.yml"
        (intellijYaml cfg (wrapperName cfg) (description cfg)), ?_, ?_⟩
      · simp [ideVariant, compose, composeWith, hf]
      · simpa [itemText] using hy2
  · intro ht
    have hm : containsStr (modConfigRecipes cfg)
        "mod config recipes yaml install /path/to/your/rewrite.yml" = true := by
      apply containsStr_intro _
        ("mod config recipes jar install " ++ cfg.artifact ++ ":LATEST\n")
        "mod config recipes yaml install /path/to/your/rewrite.yml" "" _ ?_ rfl
      have hsp : (":LATEST\nmod config recipes yaml install /path/to/your/rewrite.yml" : String)
          = ":LATEST\n" ++ "mod config recipes yaml install /path/to/your/rewrite.yml" := by
        decide
      rw [modConfigRecipes]
      simp only [ht, if_true, hsp]
      simp [String.append_assoc]
    refine ⟨?_, ?_, ?_, ?_⟩
    · rw [bodyContains, List.any_eq_true]
      refine ⟨Item.code "shell" "shell" (modConfigRecipes cfg), ?_, ?_⟩
      · simp [compose, composeWith]
      · simpa [itemText] using hm
    · simp [ideVariant, compose, composeWith, ht, codeTexts]
    · have n1 : containsStr "You can run OpenRewrite recipes directly from IntelliJ IDEA, after installing the OpenRewrite plugin."
          "com.github.timtebeek." = false := by decide
      have n2 : containsStr "After adding the rewrite.yml file shown above to your project, you should see a run icon in the left margin offering to run the recipe."
          "com.github.timtebeek." = false := by decide
      have m1 := containsStr_false_left _ "com.github.timtebeek."
        (stripWhitespace cfg.recipeDisplayName) n1
      have m2 := containsStr_false_left _ "com.github.timtebeek."
        (stripWhitespace cfg.recipeDisplayName) n2
      simp [ideVariant, compose, composeWith, ht, bodyContains, itemText,
        deriveWrapperName, m1, m2]
    · have n3 : containsStr "You can run OpenRewrite recipes directly from IntelliJ IDEA, after installing the OpenRewrite plugin."
          " and apply best practices to assertions." = false := by decide
      have n4 : containsStr "After adding the rewrite.yml file shown above to your project, you should see a run icon in the left margin offering to run the recipe."
          " and apply best practices to assertions." = false := by decide
      have m3 := containsStr_false_right _ cfg.recipeDisplayName
        " and apply best practices to assertions." n3
      have m4 := containsStr_false_right _ cfg.recipeDisplayName
        " and apply best practices to assertions." n4
      simp [ideVariant, compose, composeWith, ht, bodyContains, itemText,
        deriveDescription, m3, m4]

/-- Witness for `ide_variant_content`: the no-override branch at `cfgA`
and the manifest-install branch at `cfgY`. -/
theorem ide_variant_content_witness :
    (bodyContains (ideVariant cfgA) (deriveWrapperName cfgA.recipeDisplayName) = true ∧
     bodyContains (ideVariant cfgA) (deriveDescription cfgA.recipeDisplayName) = true) ∧
    (bodyContains ((compose cfgY).getD 0 { value := "", label := "", body := [] })
        "mod config recipes yaml install /path/to/your/rewrite.yml" = true ∧
     codeTexts (ideVariant cfgY) = [] ∧
     bodyContains (ideVariant cfgY) (deriveWrapperName cfgY.recipeDisplayName) = false ∧
     bodyContains (ideVariant cfgY) (deriveDescription cfgY.recipeDisplayName) = false) :=
  ⟨(ide_variant_content cfgA).1 rfl rfl rfl, (ide_variant_content cfgY).2 rfl⟩

set_option maxRecDepth 400000 in
/-- C7 (counterexample): when both overrides are supplied as the empty
string, derivation is NOT suppressed: the derived wrapper name and the
derived description both appear in the composed output (in the IDE
variant's rewrite.yml snippet). -/
theorem empty_override_uses_derived :
    cfgE.intellijWrapperName = some "" ∧ cfgE.intellijDescription = some "" ∧
    bodyContains (ideVariant cfgE) (deriveWrapperName cfgE.recipeDisplayName) = true ∧
    bodyContains (ideVariant cfgE) (deriveDescription cfgE.recipeDisplayName) = true :=
  ⟨rfl, rfl, by decide, by decide⟩

/-- C7 (amended): for every configuration in which both
`intellijWrapperName` and `intellijDescription` are supplied with
NONEMPTY values, derivation is suppressed entirely: the composed output
equals the output built directly from the two overrides, without
consulting the derived wrapper name or derived description. -/
theorem override_suppresses_derivation (cfg : RecipeConfig) (w d : String)
    (hw : cfg.intellijWrapperName = some w) (hw0 : w ≠ "")
    (hd : cfg.intellijDescription = some d) (hd0 : d ≠ "") :
    compose cfg = composeWith cfg w d := by
  rw [compose, wrapperName, description, hw, hd]
  simp [jsOr, hw0, hd0]

/-- Witness for `override_suppresses_derivation` at the concrete `cfgF`. -/
theorem override_suppresses_derivation_witness :
    compose cfgF = composeWith cfgF "com.example.Custom" "Custom description." :=
  override_suppresses_derivation cfgF "com.example.Custom" "Custom description."
    rfl (by decide) rfl (by decide)

/-- C8: `compose` is deterministic: equal configurations give identical
output (it is a pure function of its input value). -/
theorem compose_deterministic (c1 c2 : RecipeConfig) (h : c1 = c2) :
    compose c1 = compose c2 := by rw [h]

/-- Witness for `compose_deterministic` at the concrete `cfgA`. -/
theorem compose_deterministic_witness : compose cfgA = compose cfgA :=
  compose_deterministic cfgA cfgA rfl

/-- C9: when `requiresYamlInstall` is true the declarative IDE variant's
body is one fixed constant text: any two such configurations, however
different in every other field, give identical IDE variant bodies. -/
theorem ide_body_constant_when_yaml (c1 c2 : RecipeConfig)
    (h1 : c1.requiresYamlInstall = true) (h2 : c2.requiresYamlInstall = true) :
    (ideVariant c1).body = (ideVariant c2).body := by
  simp [ideVariant, compose, composeWith, h1, h2]

/-- Witness for `ide_body_constant_when_yaml` at the two distinct concrete
configurations `cfgY` and `cfgY2`. -/
theorem ide_body_constant_when_yaml_witness :
    (ideVariant cfgY).body = (ideVariant cfgY2).body :=
  ide_body_constant_when_yaml cfgY cfgY2 rfl rfl

set_option maxRecDepth 400000 in
/-- C10: for every configuration whose artifact contains no colon,
rendering raises no error: the full six-variant list is produced, the
whole artifact string is used as the group, the artifactId is absent, and
the Maven POM variant interpolates the literal text `undefined` into its
dependency block. -/
theorem no_colon_renders_undefined (cfg : RecipeConfig)
    (h : ':' ∉ cfg.artifact.data) :
    (compose cfg).map Variant.label = fixedLabels ∧
    (splitArtifact cfg.artifact).1 = cfg.artifact ∧
    (splitArtifact cfg.artifact).2 = none ∧
    bodyContains ((compose cfg).getD 2 { value := "", label := "", body := [] })
      "<artifactId>undefined</artifactId>" = true := by
  have hs := splitArtifact_not_mem cfg.artifact h
  have hpom : containsStr (mavenPom cfg) "<artifactId>undefined</artifactId>" = true := by
    apply containsStr_intro _
      (pomA ++ cfg.recipeName ++ pomB ++ cfg.artifact ++ "</groupId>\n            ")
      "<artifactId>undefined</artifactId>"
      "\n            <version>LATEST</version>\n          </dependency>\n        </dependencies>\n      </plugin>\n    </plugins>\n  </build>\n</project>"
      _ ?_ rfl
    have hsp : pomC ++ ("undefined" ++ pomD)
        = "</groupId>\n            " ++ ("<artifactId>undefined</artifactId>"
          ++ "\n            <version>LATEST</version>\n          </dependency>\n        </dependencies>\n      </plugin>\n    </plugins>\n  </build>\n</project>") := by
      decide
    rw [mavenPom, hs]
    simp only [jsTemplate, String.append_assoc]
    rw [hsp]
  refine ⟨rfl, by rw [hs], by rw [hs], ?_⟩
  rw [bodyContains, List.any_eq_true]
  refine ⟨Item.code "xml" "pom.xml" (mavenPom cfg), ?_, ?_⟩
  · simp [compose, composeWith]
  · simpa [itemText] using hpom

set_option maxRecDepth 400000 in
/-- Witness for `no_colon_renders_undefined` at the concrete `cfgN`. -/
theorem no_colon_renders_undefined_witness :
    (compose cfgN).map Variant.label = fixedLabels ∧
    (splitArtifact cfgN.artifact).1 = cfgN.artifact ∧
    (splitArtifact cfgN.artifact).2 = none ∧
    bodyContains ((compose cfgN).getD 2 { value := "", label := "", body := [] })
      "<artifactId>undefined</artifactId>" = true :=
  no_colon_renders_undefined cfgN (by decide)

end RunRecipe
